import Mathlib

/-
A shallow embedding of the ChatAgent orchestration core
(src/agenticai/singleagent.py) and a verification of its documented
behaviour: configuration resolution, chat-history seeding, sampling-settings
updates, argument/settings merging in `run`, response extraction, failure
propagation, and skill loading.
-/

namespace AgentLab

/-- Python runtime values carried through `KernelArguments` dictionaries.
The agent code never computes with these values, it only stores, merges and
forwards them, so a small closed universe suffices. -/
inductive Val where
  | pyNone
  | pyStr (s : String)
  | pyInt (n : Int)
deriving DecidableEq, Repr

/-- A Python `dict` with string keys: an insertion-ordered association list.
Keys are unique in every dictionary Python can build; lemmas that need this
take an explicit `Nodup` hypothesis. -/
abbrev Dict (α : Type) := List (String × α)

/-- Python `d[key]` lookup (first matching key). -/
def dictGet {α : Type} : Dict α → String → Option α
  | [], _ => none
  | (k, v) :: rest, key => if k = key then some v else dictGet rest key

/-- Python `d[key] = v`: replace the value in place if the key is present,
otherwise append the new pair at the end. -/
def dictSet {α : Type} : Dict α → String → α → Dict α
  | [], key, v => [(key, v)]
  | (k, w) :: rest, key, v =>
      if k = key then (key, v) :: rest else (k, w) :: dictSet rest key v

/-- Python `d.update(u)`: assign every pair of `u` into `d`, in order. -/
def dictUpdate {α : Type} (d u : Dict α) : Dict α :=
  u.foldl (fun acc kv => dictSet acc kv.1 kv.2) d

/-- Specification of lookup in a merged dictionary: the updating dictionary
`u` answers every key it holds, the base dictionary `d` answers the rest. -/
def mergedGet {α : Type} (d u : Dict α) (k : String) : Option α :=
  match dictGet u k with
  | some v => some v
  | none => dictGet d k

/-- Conversation roles used by `ChatHistory.add_system_message` /
`add_user_message` / assistant turns. -/
inductive Role where
  | system
  | user
  | assistant
deriving DecidableEq, Repr

/-- One entry of the semantic-kernel `ChatHistory`. -/
structure ChatMessage where
  role : Role
  content : String
deriving DecidableEq, Repr

/-- The semantic-kernel `FunctionChoiceBehavior` record as the agent stores
it inside its execution settings.  The agent code only constructs and stores
these values. -/
structure FunctionChoiceBehavior where
  enable_kernel_functions : Bool := true
  maximum_auto_invoke_attempts : Int := 5
  filters : Option (Dict (List String)) := none
  type_ : Option String := none
deriving DecidableEq, Repr

/-- `FunctionChoiceBehavior.Auto()`: the default auto-invoke behaviour
installed by `ChatAgent._configure_planner_config`. -/
def FunctionChoiceBehavior.Auto : FunctionChoiceBehavior :=
  { type_ := some "auto" }

/-- `AzureChatPromptExecutionSettings`, restricted to the fields the agent
code reads or writes (see `set_planner_execution_settings`).  The float-typed
sampling parameters are only ever stored and forwarded, never arithmetically
combined, so we embed them as exact rationals. -/
structure PlannerConfig where
  temperature : Option ℚ := none
  top_p : Option ℚ := none
  presence_penalty : Option ℚ := none
  frequency_penalty : Option ℚ := none
  max_tokens : Option Int := none
  number_of_responses : Option Int := none
  stop : Option (List String) := none
  stream : Bool := false
  user : Option String := none
  function_call : Option String := none
  function_choice_behavior : Option FunctionChoiceBehavior := none
deriving DecidableEq, Repr

/-- `ChatAgent._configure_planner_config()`: default settings with the
`Auto` function-choice behaviour. -/
def configure_planner_config : PlannerConfig :=
  { function_choice_behavior := some FunctionChoiceBehavior.Auto }

/-- The `settings` value accepted by `configure_kernel_arguments` and `run`:
a single `PromptExecutionSettings`, a list of them, or a dict keyed by
service id.  `run` never inspects this value, it is carried whole into the
`KernelArguments`. -/
inductive KSettings where
  | single (s : PlannerConfig)
  | several (ss : List PlannerConfig)
  | byService (m : Dict PlannerConfig)
deriving DecidableEq, Repr

/-- Python truthiness of an optional string: `None` and `""` are falsy. -/
def pyTruthyStr : Option String → Bool
  | none => false
  | some s => !s.isEmpty

/-- Python `a or b` on optional strings: `b` when `a` is falsy. -/
def pyOrStr (a b : Option String) : Option String :=
  if pyTruthyStr a then a else b

/-- The state of a constructed `ChatAgent` (the fields relevant to the
verified operations; logging, tracing and the Azure client object are
omitted).  Defaults mirror the values `__init__` installs. -/
structure AgentState where
  description : Option String := none
  instructions : Option String := none
  chat_history : List ChatMessage := []
  azure_openai_key : Option String := none
  azure_openai_api_endpoint : Option String := none
  azure_openai_api_version : Option String := none
  azure_chat_deployment_id : Option String := none
  service_id : String := "openai-chat"
  planner_config : PlannerConfig := configure_planner_config
  default_kernel_arguments : Dict Val := []
  default_kernel_settings : Option KSettings := none
deriving DecidableEq, Repr

/-- The explicit constructor parameters of `ChatAgent.__init__` that take
part in configuration resolution and history seeding. -/
structure InitParams where
  description : Option String := none
  instructions : Option String := none
  planner_config : Option PlannerConfig := none
  azure_openai_key : Option String := none
  azure_openai_endpoint : Option String := none
  azure_openai_api_version : Option String := none
  azure_openai_chat_deployment_id : Option String := none
  service_id : Option String := none
deriving DecidableEq, Repr

/-- The environment values `os.getenv` returns for the four required keys
(`None` when the variable is unset). -/
structure Env where
  azure_openai_key : Option String := none
  azure_openai_api_endpoint : Option String := none
  azure_openai_api_version : Option String := none
  azure_aoai_chat_model_name_deployment_id : Option String := none
deriving DecidableEq, Repr

/-- The `required_vars` dictionary of `__init__`: each required key paired
with its resolved value (explicit argument `or` environment value). -/
def resolvedVars (p : InitParams) (env : Env) : Dict (Option String) :=
  [("AZURE_OPENAI_KEY", pyOrStr p.azure_openai_key env.azure_openai_key),
   ("AZURE_OPENAI_API_ENDPOINT",
      pyOrStr p.azure_openai_endpoint env.azure_openai_api_endpoint),
   ("AZURE_OPENAI_API_VERSION",
      pyOrStr p.azure_openai_api_version env.azure_openai_api_version),
   ("AZURE_AOAI_CHAT_MODEL_NAME_DEPLOYMENT_ID",
      pyOrStr p.azure_openai_chat_deployment_id
        env.azure_aoai_chat_model_name_deployment_id)]

/-- The `missing_vars` list of `__init__`: names of required keys whose
resolved value is falsy (unset or empty), in dictionary order. -/
def missingVars (p : InitParams) (env : Env) : List String :=
  ((resolvedVars p env).filter (fun kv => !pyTruthyStr kv.2)).map Prod.fst

/-- The construction failure raised by `__init__` when required settings are
missing.  The raised `ValueError`'s message is the comma-join of exactly
this list of key names (the spec calls this error `ConfigurationError`). -/
inductive InitError where
  | missingSettings (missing : List String)
deriving DecidableEq, Repr

/-- The message text interpolated into the raised error. -/
def InitError.message : InitError → String
  | .missingSettings missing =>
      "Missing the following required Azure OpenAI settings: " ++
        String.intercalate ", " missing ++
        ". Check environment variables or pass them explicitly."

/-- The history seeding performed by `__init__`: the description is added as
a system message and the instructions as a user message, each guarded by
Python truthiness (`if description:` / `if instructions:`). -/
def seedMessages (description instructions : Option String) : List ChatMessage :=
  (if pyTruthyStr description then [⟨Role.system, description.getD ""⟩] else []) ++
    (if pyTruthyStr instructions then [⟨Role.user, instructions.getD ""⟩] else [])

/-- `ChatAgent.__init__` restricted to history seeding and configuration
resolution (seeding happens first in the source, then the required-settings
check; skill loading, which happens later, is modelled separately by
`ChatAgent.load_skills`). -/
def ChatAgent.init (p : InitParams) (env : Env) : Except InitError AgentState :=
  let vars := resolvedVars p env
  let missing := missingVars p env
  if missing.isEmpty then
    Except.ok
      { description := p.description
        instructions := p.instructions
        chat_history := seedMessages p.description p.instructions
        azure_openai_key := dictGet vars "AZURE_OPENAI_KEY" |>.join
        azure_openai_api_endpoint := dictGet vars "AZURE_OPENAI_API_ENDPOINT" |>.join
        azure_openai_api_version := dictGet vars "AZURE_OPENAI_API_VERSION" |>.join
        azure_chat_deployment_id :=
          dictGet vars "AZURE_AOAI_CHAT_MODEL_NAME_DEPLOYMENT_ID" |>.join
        service_id := (pyOrStr p.service_id (some "openai-chat")).getD "openai-chat"
        planner_config := p.planner_config.getD configure_planner_config
        default_kernel_arguments := []
        default_kernel_settings := none }
  else Except.error (InitError.missingSettings missing)

/-- The argument record of one `set_planner_execution_settings` call.
Every parameter of the Python method defaults to `None` except `stream`,
whose Python default is `False`; `none` here means "not supplied at the
call site". -/
structure SamplingCall where
  temperature : Option ℚ := none
  top_p : Option ℚ := none
  presence_penalty : Option ℚ := none
  frequency_penalty : Option ℚ := none
  max_tokens : Option Int := none
  number_of_responses : Option Int := none
  stop_sequences : Option (List String) := none
  stream : Option Bool := none
  user : Option String := none
  function_call : Option String := none
deriving DecidableEq, Repr

/-- `ChatAgent.set_planner_execution_settings`: each `None`-guarded
parameter assigns its field only when supplied (`if x is not None:`), while
`stream` is assigned unconditionally with the Python parameter default
`False` filled in when the caller omits it.  The method body is a sequence
of independent single-field assignments, rendered here as its net effect on
each field. -/
def ChatAgent.set_planner_execution_settings
    (pc : PlannerConfig) (c : SamplingCall) : PlannerConfig :=
  { temperature := match c.temperature with
      | some v => some v
      | none => pc.temperature
    top_p := match c.top_p with
      | some v => some v
      | none => pc.top_p
    presence_penalty := match c.presence_penalty with
      | some v => some v
      | none => pc.presence_penalty
    frequency_penalty := match c.frequency_penalty with
      | some v => some v
      | none => pc.frequency_penalty
    max_tokens := match c.max_tokens with
      | some v => some v
      | none => pc.max_tokens
    number_of_responses := match c.number_of_responses with
      | some v => some v
      | none => pc.number_of_responses
    stop := match c.stop_sequences with
      | some v => some v
      | none => pc.stop
    stream := c.stream.getD false
    user := match c.user with
      | some v => some v
      | none => pc.user
    function_call := match c.function_call with
      | some v => some v
      | none => pc.function_call
    function_choice_behavior := pc.function_choice_behavior }

/-- The `KernelArguments` object built inside `run`: the keyword argument
`settings=final_settings` plus the merged argument dictionary. -/
structure KernelArguments where
  settings : Option KSettings
  args : Dict Val
deriving DecidableEq, Repr

/-- One dispatch to `chat_completion.get_chat_message_contents`, with the
keyword arguments `run` passes (`chat_history`, `settings=planner_config`,
`arguments`; the kernel handle itself carries no claim-relevant state). -/
structure ProviderCall where
  chat_history : List ChatMessage
  settings : PlannerConfig
  arguments : KernelArguments
deriving DecidableEq, Repr

/-- A provider-side failure raised by the completion call. -/
structure RunError where
  cause : String
deriving DecidableEq, Repr

/-- The messages `run` appends before dispatch: the system prompt then the
user prompt, each guarded by `if ... is not None:`. -/
def promptMessages (system_prompt user_prompt : Option String) : List ChatMessage :=
  (match system_prompt with
    | some s => [⟨Role.system, s⟩]
    | none => []) ++
    (match user_prompt with
      | some s => [⟨Role.user, s⟩]
      | none => [])

/-- The `user_prompt` value stored under the `"input"` key:
`args_for_kernel["input"] = user_prompt` stores Python `None` when no user
prompt was given. -/
def inputVal : Option String → Val
  | some s => Val.pyStr s
  | none => Val.pyNone

/-- The provider dispatch `run` performs: defaults copied and updated with
`run_arguments` (call wins on collision), settings taken whole from
`run_settings` when given (else the configured default), and the `"input"`
entry overwritten with `user_prompt` just before the call. -/
def ChatAgent.providerCall (st : AgentState)
    (system_prompt user_prompt : Option String)
    (run_arguments : Option (Dict Val)) (run_settings : Option KSettings) :
    ProviderCall :=
  let final_args : Dict Val :=
    match run_arguments with
    | some r => dictUpdate st.default_kernel_arguments r
    | none => st.default_kernel_arguments
  let final_settings : Option KSettings :=
    match run_settings with
    | some s => some s
    | none => st.default_kernel_settings
  { chat_history := st.chat_history ++ promptMessages system_prompt user_prompt
    settings := st.planner_config
    arguments :=
      { settings := final_settings
        args := dictSet final_args "input" (inputVal user_prompt) } }

/-- `ChatAgent.run`: append the prompts to the history, dispatch to the
completion provider, and return the first response (`result[0] if result
else ""`).  A provider exception is logged and re-raised unchanged (`raise`
with no argument), and the appended prompts stay in the history either
way. -/
def ChatAgent.run (st : AgentState)
    (system_prompt user_prompt : Option String)
    (run_arguments : Option (Dict Val)) (run_settings : Option KSettings)
    (provider : ProviderCall → Except RunError (List String)) :
    AgentState × Except RunError String :=
  let st1 :=
    { st with chat_history :=
        st.chat_history ++ promptMessages system_prompt user_prompt }
  match provider
      (ChatAgent.providerCall st system_prompt user_prompt run_arguments
        run_settings) with
  | Except.ok result =>
      (st1, Except.ok (match result with
        | [] => ""
        | r :: _ => r))
  | Except.error e => (st1, Except.error e)

/-- A skill bundle as the skills manager records it: the plugin directory
and the exposed capabilities. -/
structure SkillBundle where
  directory : String
  capabilities : List String
deriving DecidableEq, Repr

/-- Modelled from the spec: the `Skills` manager class (imported by the
source as `src.agenticai.skills.Skills`) is not among the files under
review.  Per spec section 4.3 it tracks the discoverable bundles and the
set of currently activated skill names. -/
structure SkillsManager where
  available : Dict SkillBundle
  active : List String
deriving DecidableEq, Repr

/-- The skill-lifecycle failures of spec section 7. -/
inductive SkillError where
  | skillNotFound (name : String)
  | skillInvalid (name : String)
  | skillNotLoaded (name : String)
deriving DecidableEq, Repr

/-- Modelled from the spec: `Skills.load` for one name (spec section 4.3):
resolve the bundle, verify it exposes at least one capability, and mark it
active; loading an already-active skill is a no-op. -/
def SkillsManager.loadSkill (m : SkillsManager) (name : String) :
    Except SkillError SkillsManager :=
  match dictGet m.available name with
  | none => Except.error (SkillError.skillNotFound name)
  | some b =>
      if b.capabilities.isEmpty then Except.error (SkillError.skillInvalid name)
      else if name ∈ m.active then Except.ok m
      else Except.ok { m with active := m.active ++ [name] }

/-- Modelled from the spec: `Skills.load_skills` loads each requested name
in order, stopping at the first failure. -/
def SkillsManager.load_skills (m : SkillsManager) (names : List String) :
    Except SkillError SkillsManager :=
  match names with
  | [] => Except.ok m
  | n :: rest =>
      match m.loadSkill n with
      | Except.error e => Except.error e
      | Except.ok m2 => SkillsManager.load_skills m2 rest

/-- Modelled from the spec: `Skills.get_skill` returns the loaded bundle,
failing with `SkillNotLoadedError` when the name was never activated (spec
section 4.3). -/
def SkillsManager.get_skill (m : SkillsManager) (name : String) :
    Except SkillError SkillBundle :=
  if name ∈ m.active then
    match dictGet m.available name with
    | some b => Except.ok b
    | none => Except.error (SkillError.skillNotFound name)
  else Except.error (SkillError.skillNotLoaded name)

/-- `os.path.basename` for the forward-slash paths the skills store uses. -/
def pathBasename (path : String) : String :=
  (path.splitOn "/").getLastD ""

/-- `os.path.dirname` for the forward-slash paths the skills store uses. -/
def pathDirname (path : String) : String :=
  String.intercalate "/" (path.splitOn "/").dropLast

/-- The skill-relevant state of an agent: the skills manager plus the
kernel's plugin registry.  The semantic-kernel plugin collection is an
external collaborator; per spec sections 6 and 9 it is a closed registry
keyed by plugin name, so re-adding a plugin re-registers the same entry. -/
structure AgentSkillState where
  skills_manager : SkillsManager
  kernel_plugins : Dict String
deriving DecidableEq, Repr

/-- The plugin-registration loop of `ChatAgent.load_skills`: for each
requested name, fetch the loaded bundle and register the plugin under the
basename of its directory with the dirname as parent directory. -/
def ChatAgent.addSkillPlugins (m : SkillsManager) (plugins : Dict String) :
    List String → Except SkillError (Dict String)
  | [] => Except.ok plugins
  | n :: rest =>
      match m.get_skill n with
      | Except.error e => Except.error e
      | Except.ok b =>
          ChatAgent.addSkillPlugins m
            (dictSet plugins (pathBasename b.directory) (pathDirname b.directory))
            rest

/-- `ChatAgent.load_skills`: delegate to the skills manager, then register
each requested skill's plugin into the kernel. -/
def ChatAgent.load_skills (st : AgentSkillState) (names : List String) :
    Except SkillError AgentSkillState :=
  match st.skills_manager.load_skills names with
  | Except.error e => Except.error e
  | Except.ok m =>
      match ChatAgent.addSkillPlugins m st.kernel_plugins names with
      | Except.error e => Except.error e
      | Except.ok ps =>
          Except.ok { skills_manager := m, kernel_plugins := ps }

/-- Looking up the key just assigned returns the assigned value. -/
theorem dictGet_dictSet_self {α : Type} (d : Dict α) (k : String) (v : α) :
    dictGet (dictSet d k v) k = some v := by
  induction d with
  | nil => simp [dictSet, dictGet]
  | cons kv rest ih =>
      obtain ⟨k', w⟩ := kv
      by_cases h : k' = k <;> simp [dictSet, dictGet, h, ih]

/-- Assigning one key leaves lookups of any other key unchanged. -/
theorem dictGet_dictSet_ne {α : Type} (d : Dict α) (k k' : String) (v : α)
    (h : k' ≠ k) : dictGet (dictSet d k v) k' = dictGet d k' := by
  have h' : k ≠ k' := Ne.symm h
  induction d with
  | nil => simp [dictSet, dictGet, h']
  | cons kv rest ih =>
      obtain ⟨k'', w⟩ := kv
      by_cases h2 : k'' = k
      · subst h2
        simp [dictSet, dictGet, h']
      · simp [dictSet, dictGet, h2, ih]

/-- A key absent from a dictionary looks up to `none`. -/
theorem dictGet_eq_none_of_not_mem {α : Type} (d : Dict α) (k : String)
    (h : k ∉ d.map Prod.fst) : dictGet d k = none := by
  induction d with
  | nil => rfl
  | cons kv rest ih =>
      obtain ⟨k', v⟩ := kv
      simp only [List.map_cons, List.mem_cons, not_or] at h
      simp [dictGet, Ne.symm h.1, ih h.2]

/-- Lookup after a Python `copy`-then-`update` merge: the updating
dictionary wins on every key it holds, the base dictionary answers the
rest.  The updating dictionary has unique keys, as every Python dict
does. -/
theorem dictGet_dictUpdate {α : Type} (d u : Dict α) (k : String)
    (hu : (u.map Prod.fst).Nodup) :
    dictGet (dictUpdate d u) k = mergedGet d u k := by
  induction u generalizing d with
  | nil => simp [dictUpdate, mergedGet, dictGet]
  | cons kv rest ih =>
      obtain ⟨k', v⟩ := kv
      simp only [List.map_cons, List.nodup_cons] at hu
      have step : dictUpdate d ((k', v) :: rest) = dictUpdate (dictSet d k' v) rest := rfl
      rw [step, ih (dictSet d k' v) hu.2]
      by_cases h : k' = k
      · subst h
        simp only [mergedGet]
        rw [dictGet_eq_none_of_not_mem rest k' hu.1]
        simp [dictGet, dictGet_dictSet_self]
      · simp only [mergedGet]
        simp [dictGet, h, dictGet_dictSet_ne d k' k v (Ne.symm h)]

/-- Re-assigning the same key/value pair is a no-op on the result of the
first assignment. -/
theorem dictSet_dictSet_same {α : Type} (d : Dict α) (k : String) (v : α) :
    dictSet (dictSet d k v) k v = dictSet d k v := by
  induction d with
  | nil => simp [dictSet]
  | cons kv rest ih =>
      obtain ⟨k', w⟩ := kv
      by_cases h : k' = k <;> simp [dictSet, h, ih]

/-- C1: for every provider result list, `run` returns the first element of
the list, and for the empty result list it returns the empty string instead
of raising an error. -/
theorem C1_run_returns_first_or_empty (st : AgentState)
    (sp up : Option String) (ra : Option (Dict Val)) (rs : Option KSettings)
    (result : List String) :
    (ChatAgent.run st sp up ra rs (fun _ => Except.ok result)).2 =
      Except.ok (match result with
        | [] => ""
        | r :: _ => r) := by
  simp [ChatAgent.run]

/-- C6: when the completion provider raises, `run` propagates that very
failure to the caller (the original cause, re-raised unchanged), and every
system or user prompt appended at the start of the call remains in the chat
history afterwards; nothing is rolled back. -/
theorem C6_provider_failure_keeps_history (st : AgentState)
    (sp up : Option String) (ra : Option (Dict Val)) (rs : Option KSettings)
    (e : RunError) :
    ChatAgent.run st sp up ra rs (fun _ => Except.error e) =
      ({ st with chat_history := st.chat_history ++ promptMessages sp up },
        Except.error e) := by
  simp [ChatAgent.run]

/-- C7: when call-level `run_settings` is supplied, the settings carried in
the dispatched kernel arguments are exactly that value as a whole, with no
contribution from the agent default; when it is not supplied, the
agent-level default settings are used unchanged. -/
theorem C7_settings_whole_override (st : AgentState) (sp up : Option String)
    (ra : Option (Dict Val)) (s : KSettings) :
    (ChatAgent.providerCall st sp up ra (some s)).arguments.settings = some s ∧
      (ChatAgent.providerCall st sp up ra none).arguments.settings =
        st.default_kernel_settings := by
  constructor <;> rfl

/-- C10: whatever the merged default and call-level arguments hold under
`"input"`, the dispatched argument mapping has its `"input"` entry
overwritten with the `user_prompt` of the call — Python `None` when no user
prompt is given — so a caller-supplied `"input"` never reaches the
provider. -/
theorem C10_input_always_overwritten (st : AgentState)
    (sp up : Option String) (ra : Option (Dict Val)) (rs : Option KSettings) :
    dictGet (ChatAgent.providerCall st sp up ra rs).arguments.args "input" =
      some (inputVal up) := by
  cases ra <;> simp [ChatAgent.providerCall, dictGet_dictSet_self]

/-- C2 as stated is false: the dispatched arguments are not the plain union
of defaults and call arguments, because `run` overwrites the `"input"` key
with the user prompt.  With defaults `{"input": 0}`, call arguments
`{"input": 5}` and user prompt `"hi"`, the union holds `5` under `"input"`
but the provider receives the string `"hi"`. -/
theorem C2_counterexample :
    dictGet (ChatAgent.providerCall
        { default_kernel_arguments := [("input", Val.pyInt 0)] }
        none (some "hi") (some [("input", Val.pyInt 5)]) none).arguments.args
        "input" = some (Val.pyStr "hi") ∧
      dictGet (dictUpdate [("input", Val.pyInt 0)] [("input", Val.pyInt 5)])
        "input" = some (Val.pyInt 5) ∧
      some (Val.pyStr "hi") ≠ some (Val.pyInt 5) := by
  refine ⟨by decide, by decide, by decide⟩

/-- C2 (amended): on every key other than `"input"`, the arguments
dispatched to the completion provider are the union of the agent defaults
and the call-level `run_arguments`, with the call-level value winning on
collision (`"input"` itself is unconditionally overwritten with the user
prompt).  The call-level dictionary has unique keys, as every Python dict
does. -/
theorem C2_merge_call_wins (st : AgentState) (sp up : Option String)
    (ra : Dict Val) (rs : Option KSettings) (k : String)
    (hu : (ra.map Prod.fst).Nodup) (hk : k ≠ "input") :
    dictGet (ChatAgent.providerCall st sp up (some ra) rs).arguments.args k =
      mergedGet st.default_kernel_arguments ra k := by
  show dictGet
      (dictSet (dictUpdate st.default_kernel_arguments ra) "input" (inputVal up)) k = _
  rw [dictGet_dictSet_ne _ _ _ _ hk]
  exact dictGet_dictUpdate _ _ _ hu

/-- Witness for C2: defaults `{"x": 0, "y": 2}` merged with call arguments
`{"x": 1}` reach the provider as `x = 1` and `y = 2`. -/
theorem C2_merge_call_wins_witness :
    dictGet (ChatAgent.providerCall
        { default_kernel_arguments := [("x", Val.pyInt 0), ("y", Val.pyInt 2)] }
        none none (some [("x", Val.pyInt 1)]) none).arguments.args "x" =
      some (Val.pyInt 1) ∧
      dictGet (ChatAgent.providerCall
        { default_kernel_arguments := [("x", Val.pyInt 0), ("y", Val.pyInt 2)] }
        none none (some [("x", Val.pyInt 1)]) none).arguments.args "y" =
      some (Val.pyInt 2) := by
  constructor
  · exact (C2_merge_call_wins
      { default_kernel_arguments := [("x", Val.pyInt 0), ("y", Val.pyInt 2)] }
      none none [("x", Val.pyInt 1)] none "x" (by decide) (by decide)).trans
      (by decide)
  · exact (C2_merge_call_wins
      { default_kernel_arguments := [("x", Val.pyInt 0), ("y", Val.pyInt 2)] }
      none none [("x", Val.pyInt 1)] none "y" (by decide) (by decide)).trans
      (by decide)

/-- C3: whenever at least one required configuration key resolves (explicit
argument, else environment) to an unset or empty value, construction fails
with the configuration error carrying the full list of missing keys, and
that list contains every key whose resolved value is falsy, not only the
first one. -/
theorem C3_init_names_all_missing (p : InitParams) (env : Env)
    (h : missingVars p env ≠ []) :
    ChatAgent.init p env =
      Except.error (InitError.missingSettings (missingVars p env)) ∧
      ∀ kv, kv ∈ resolvedVars p env → pyTruthyStr kv.2 = false →
        kv.1 ∈ missingVars p env := by
  constructor
  · have hne : (missingVars p env).isEmpty = false := by
      cases hm : missingVars p env with
      | nil => exact absurd hm h
      | cons a l => rfl
    simp [ChatAgent.init, hne]
  · intro kv hmem hfalsy
    simp only [missingVars, List.mem_map]
    exact ⟨kv, List.mem_filter.mpr ⟨hmem, by simp [hfalsy]⟩, rfl⟩

/-- Witness for C3: with nothing passed explicitly and an empty
environment, construction fails naming all four required keys. -/
theorem C3_init_names_all_missing_witness :
    ChatAgent.init {} {} =
      Except.error (InitError.missingSettings
        ["AZURE_OPENAI_KEY", "AZURE_OPENAI_API_ENDPOINT",
         "AZURE_OPENAI_API_VERSION",
         "AZURE_AOAI_CHAT_MODEL_NAME_DEPLOYMENT_ID"]) ∧
      "AZURE_OPENAI_API_VERSION" ∈ missingVars {} {} := by
  have h := C3_init_names_all_missing {} {} (by decide)
  have hl : missingVars ({} : InitParams) ({} : Env) =
      ["AZURE_OPENAI_KEY", "AZURE_OPENAI_API_ENDPOINT",
       "AZURE_OPENAI_API_VERSION",
       "AZURE_AOAI_CHAT_MODEL_NAME_DEPLOYMENT_ID"] := by decide
  refine ⟨?_, h.2 ("AZURE_OPENAI_API_VERSION", none) (by decide) (by decide)⟩
  rw [h.1, hl]

/-- C4 as stated is false: `set_planner_execution_settings` assigns the
`stream` field unconditionally (its Python parameter default is `False`,
not `None`), so a call supplying no field at all resets a previously
enabled `stream` back to `False` instead of retaining it. -/
theorem C4_counterexample :
    (ChatAgent.set_planner_execution_settings { stream := true } {}).stream ≠
      ({ stream := true } : PlannerConfig).stream := by
  decide

/-- C4 (amended): every `None`-guarded option — temperature, top_p,
presence_penalty, frequency_penalty, max_tokens, number_of_responses,
stop_sequences, user, function_call — retains its prior value when not
supplied, and the untouched function-choice behaviour is never reset;
`stream`, however, is always assigned the call's stream parameter, which
defaults to `False` when the caller omits it. -/
theorem C4_sampling_update_frame (pc : PlannerConfig) (c : SamplingCall) :
    (c.temperature = none →
      (ChatAgent.set_planner_execution_settings pc c).temperature = pc.temperature) ∧
    (c.top_p = none →
      (ChatAgent.set_planner_execution_settings pc c).top_p = pc.top_p) ∧
    (c.presence_penalty = none →
      (ChatAgent.set_planner_execution_settings pc c).presence_penalty =
        pc.presence_penalty) ∧
    (c.frequency_penalty = none →
      (ChatAgent.set_planner_execution_settings pc c).frequency_penalty =
        pc.frequency_penalty) ∧
    (c.max_tokens = none →
      (ChatAgent.set_planner_execution_settings pc c).max_tokens = pc.max_tokens) ∧
    (c.number_of_responses = none →
      (ChatAgent.set_planner_execution_settings pc c).number_of_responses =
        pc.number_of_responses) ∧
    (c.stop_sequences = none →
      (ChatAgent.set_planner_execution_settings pc c).stop = pc.stop) ∧
    (c.user = none →
      (ChatAgent.set_planner_execution_settings pc c).user = pc.user) ∧
    (c.function_call = none →
      (ChatAgent.set_planner_execution_settings pc c).function_call =
        pc.function_call) ∧
    (ChatAgent.set_planner_execution_settings pc c).stream = c.stream.getD false ∧
    (ChatAgent.set_planner_execution_settings pc c).function_choice_behavior =
      pc.function_choice_behavior := by
  refine ⟨?_, ?_, ?_, ?_, ?_, ?_, ?_, ?_, ?_, rfl, rfl⟩ <;>
    intro h <;> simp [ChatAgent.set_planner_execution_settings, h]

/-- Witness for C4: a call supplying nothing keeps a previously set
temperature and resets `stream` to `False`. -/
theorem C4_sampling_update_frame_witness :
    (ChatAgent.set_planner_execution_settings
        { temperature := some 1, stream := true } {}).temperature = some 1 ∧
      (ChatAgent.set_planner_execution_settings
        { temperature := some 1, stream := true } {}).stream = false := by
  have h := C4_sampling_update_frame { temperature := some 1, stream := true } {}
  exact ⟨h.1 rfl, h.2.2.2.2.2.2.2.2.2.1⟩

/-- C8 as stated is false on supplied-but-empty strings: `__init__` guards
the seeding with Python truthiness, so a construction given the empty
description and instructions "Be concise" yields a one-message history, not
the claimed two-message sequence. -/
theorem C8_counterexample :
    Except.map AgentState.chat_history
        (ChatAgent.init
          { description := some "", instructions := some "Be concise",
            azure_openai_key := some "k", azure_openai_endpoint := some "e",
            azure_openai_api_version := some "v",
            azure_openai_chat_deployment_id := some "d" } {}) =
      Except.ok [ChatMessage.mk Role.user "Be concise"] ∧
      ([ChatMessage.mk Role.user "Be concise"] : List ChatMessage) ≠
        [ChatMessage.mk Role.system "", ChatMessage.mk Role.user "Be concise"] := by
  constructor
  · rfl
  · decide

/-- C8 (amended): a construction that succeeds and is given a non-empty
description and non-empty instructions starts with exactly the two-message
history: the description as a system message, then the instructions as a
user message. -/
theorem C8_seed_history (p : InitParams) (env : Env) (d i : String)
    (hd : p.description = some d) (hi : p.instructions = some i)
    (hdne : d ≠ "") (hine : i ≠ "") (hok : missingVars p env = []) :
    Except.map AgentState.chat_history (ChatAgent.init p env) =
      Except.ok [ChatMessage.mk Role.system d, ChatMessage.mk Role.user i] := by
  have hde : d.isEmpty = false := by
    cases hde : d.isEmpty
    · rfl
    · exact absurd ((String.isEmpty_iff d).mp hde) hdne
  have hie : i.isEmpty = false := by
    cases hie : i.isEmpty
    · rfl
    · exact absurd ((String.isEmpty_iff i).mp hie) hine
  simp [ChatAgent.init, hok, seedMessages, pyTruthyStr, hd, hi, hde, hie,
    Except.map]

/-- Witness for C8: description "You are helpful" and instructions
"Be concise" produce exactly that two-message history. -/
theorem C8_seed_history_witness :
    Except.map AgentState.chat_history
        (ChatAgent.init
          { description := some "You are helpful",
            instructions := some "Be concise",
            azure_openai_key := some "k", azure_openai_endpoint := some "e",
            azure_openai_api_version := some "v",
            azure_openai_chat_deployment_id := some "d" } {}) =
      Except.ok [ChatMessage.mk Role.system "You are helpful",
        ChatMessage.mk Role.user "Be concise"] :=
  C8_seed_history _ _ "You are helpful" "Be concise" rfl rfl (by decide)
    (by decide) (by decide)

/-- A successful single-skill load leaves the available bundles unchanged,
marks the name active, and certifies the bundle it resolved. -/
theorem loadSkill_ok {m m' : SkillsManager} {n : String}
    (h : m.loadSkill n = Except.ok m') :
    m'.available = m.available ∧ n ∈ m'.active ∧
      ∃ b, dictGet m.available n = some b ∧ b.capabilities.isEmpty = false := by
  unfold SkillsManager.loadSkill at h
  split at h
  next hb => exact absurd h (by simp)
  next b hb =>
    split at h
    next hc => exact absurd h (by simp)
    next hc =>
      split at h
      next hm =>
        simp only [Except.ok.injEq] at h
        subst h
        exact ⟨rfl, hm, b, hb, by simpa using hc⟩
      next hm =>
        simp only [Except.ok.injEq] at h
        subst h
        exact ⟨rfl, by simp, b, hb, by simpa using hc⟩

/-- Loading a name that is already active, resolvable, and valid is a
no-op on the skills manager. -/
theorem loadSkill_already (m : SkillsManager) (n : String) (b : SkillBundle)
    (hb : dictGet m.available n = some b) (hc : b.capabilities.isEmpty = false)
    (hm : n ∈ m.active) : m.loadSkill n = Except.ok m := by
  unfold SkillsManager.loadSkill
  rw [hb]
  simp [hc, hm]

/-- Fetching an active, resolvable skill returns its bundle. -/
theorem get_skill_of_active (m : SkillsManager) (n : String) (b : SkillBundle)
    (hb : dictGet m.available n = some b) (hm : n ∈ m.active) :
    m.get_skill n = Except.ok b := by
  unfold SkillsManager.get_skill
  rw [if_pos hm, hb]

/-- After a successful `load_skills` of one name, loading the same name
again succeeds and changes nothing. -/
theorem load_skills_single_ok (st st1 : AgentSkillState) (n : String)
    (h : ChatAgent.load_skills st [n] = Except.ok st1) :
    ChatAgent.load_skills st1 [n] = Except.ok st1 := by
  unfold ChatAgent.load_skills at h
  split at h
  next e hL => exact absurd h (by simp)
  next m hL =>
    have hS : st.skills_manager.loadSkill n = Except.ok m := by
      unfold SkillsManager.load_skills at hL
      split at hL
      next e heq => exact absurd hL (by simp)
      next m2 heq =>
        unfold SkillsManager.load_skills at hL
        simp only [Except.ok.injEq] at hL
        rw [← hL]
        exact heq
    obtain ⟨hav, hact, b, hb, hc⟩ := loadSkill_ok hS
    have hb' : dictGet m.available n = some b := by rw [hav]; exact hb
    have hg : m.get_skill n = Except.ok b := get_skill_of_active m n b hb' hact
    have hA : ChatAgent.addSkillPlugins m st.kernel_plugins [n] =
        Except.ok (dictSet st.kernel_plugins (pathBasename b.directory)
          (pathDirname b.directory)) := by
      simp [ChatAgent.addSkillPlugins, hg]
    split at h
    next e hA0 => exact absurd h (by simp)
    next ps hA0 =>
      rw [hA] at hA0
      simp only [Except.ok.injEq] at hA0 h
      subst hA0
      subst h
      have hL1 : SkillsManager.load_skills m [n] = Except.ok m := by
        simp [SkillsManager.load_skills, loadSkill_already m n b hb' hc hact]
      have hA1 : ChatAgent.addSkillPlugins m
          (dictSet st.kernel_plugins (pathBasename b.directory)
            (pathDirname b.directory)) [n] =
          Except.ok (dictSet st.kernel_plugins (pathBasename b.directory)
            (pathDirname b.directory)) := by
        simp [ChatAgent.addSkillPlugins, hg, dictSet_dictSet_same]
      simp [ChatAgent.load_skills, hL1, hA1]

/-- C9: loading the same skill name twice yields the same activated skill
set and kernel plugin registration state as loading it once — a second load
of an already-loaded skill is a no-op that does not duplicate
registration. -/
theorem C9_load_skills_idempotent (st : AgentSkillState) (n : String) :
    (match ChatAgent.load_skills st [n] with
      | Except.ok st1 => ChatAgent.load_skills st1 [n]
      | Except.error e => Except.error e) =
      ChatAgent.load_skills st [n] := by
  cases h : ChatAgent.load_skills st [n] with
  | error e => rfl
  | ok st1 => simpa using load_skills_single_ok st st1 n h

end AgentLab
